import Mathlib

/-!
Verification development for the monthly-report scraper pipeline
(`src/main.py`): field extraction, OCR-correction heuristics, school
record construction, and output-row derivation.

Conventions of the embedding:
* Python strings are modelled as `List Char` (`Str`); substring tests
  (`pat in text`) are `hasSubstr`.
* Numeric field values are rationals (`ℚ`), covering both the Python
  ints and the fractional FTE floats; an absent dict entry is `none`.
* A Python dict keyed by the eleven field labels is the structure
  `Fields` with one `Option ℚ` slot per label.
* The mutable-dict behaviour of `apply_ocr_corrections` (`dict.copy`
  plus in-place assignment) is modelled twice: once as pure functions
  on `Fields`, and once against an explicit heap (`Heap`, a list of
  `Fields` addressed by index) where `dict.copy()` allocates and
  assignment writes in place.
-/

/-- Python strings, as lists of characters. -/
abbrev Str := List Char

/-- `startsWithStr s p` holds when `p` is a prefix of `s` (character-wise). -/
def startsWithStr : Str → Str → Bool
  | _, [] => true
  | [], _ :: _ => false
  | c :: cs, d :: ds => c == d && startsWithStr cs ds

/-- Embedding of Python's `pat in text` substring test: `hasSubstr t p`
holds when `p` occurs contiguously in `t`. -/
def hasSubstr : Str → Str → Bool
  | [], p => p.isEmpty
  | c :: cs, p => startsWithStr (c :: cs) p || hasSubstr cs p

/-- The closed enumeration of the eleven field labels used by the
pipeline (`index_labels` in `src/main.py`). -/
inductive FieldLabel
  | sub
  | isK8
  | is912
  | swdK8
  | swd912
  | ossK8
  | oss912
  | exK8
  | ex912
  | er
  | mdm
deriving DecidableEq, Repr

/-- A Python dict keyed by the eleven `FieldLabel`s: one optional
rational per label (`none` models a missing key). -/
@[ext] structure Fields where
  sub : Option ℚ
  isK8 : Option ℚ
  is912 : Option ℚ
  swdK8 : Option ℚ
  swd912 : Option ℚ
  ossK8 : Option ℚ
  oss912 : Option ℚ
  exK8 : Option ℚ
  ex912 : Option ℚ
  er : Option ℚ
  mdm : Option ℚ
deriving DecidableEq, Repr

/-- The dict with no entries. -/
def emptyFields : Fields := ⟨none, none, none, none, none, none, none, none, none, none, none⟩

/-- Python `d.get(label)`: read the slot for a label. -/
def getField (f : Fields) : FieldLabel → Option ℚ
  | .sub => f.sub
  | .isK8 => f.isK8
  | .is912 => f.is912
  | .swdK8 => f.swdK8
  | .swd912 => f.swd912
  | .ossK8 => f.ossK8
  | .oss912 => f.oss912
  | .exK8 => f.exK8
  | .ex912 => f.ex912
  | .er => f.er
  | .mdm => f.mdm

/-- Python `d[label] = v`: write the slot for a label. -/
def setField (f : Fields) : FieldLabel → ℚ → Fields
  | .sub, v => { f with sub := some v }
  | .isK8, v => { f with isK8 := some v }
  | .is912, v => { f with is912 := some v }
  | .swdK8, v => { f with swdK8 := some v }
  | .swd912, v => { f with swd912 := some v }
  | .ossK8, v => { f with ossK8 := some v }
  | .oss912, v => { f with oss912 := some v }
  | .exK8, v => { f with exK8 := some v }
  | .ex912, v => { f with ex912 := some v }
  | .er, v => { f with er := some v }
  | .mdm, v => { f with mdm := some v }

/-- The pattern list of the `"IS K-8"` row of `double_digit_fields`. -/
def ddPatsIsK8 : List Str :=
  ["Number of IS serving grades K-8:".data, "IS serving K-8:".data, "IS K-8:".data]

/-- The pattern list of the `"IS 9-12"` row of `double_digit_fields`. -/
def ddPatsIs912 : List Str :=
  ["Number of IS serving grades 9-12:".data, "IS serving 9-12:".data, "IS 9-12:".data]

/-- The `double_digit_fields` pattern table of
`_apply_double_digit_corrections` (`src/main.py:105`), in source order. -/
def double_digit_fields : List (FieldLabel × List Str) :=
  [ (.isK8, ddPatsIsK8)
  , (.is912, ddPatsIs912)
  , (.swdK8, ["SWD in grades K-8:".data, "SWD K-8:".data])
  , (.swd912, ["SWD in grades 9-12:".data, "SWD 9-12:".data])
  , (.sub, ["Substitute Teacher License:".data, "Substitutes:".data])
  , (.ossK8, ["OSS of SWD K-8:".data, "OSS K-8:".data])
  , (.oss912, ["OSS of SWD 9-12:".data, "OSS 9-12:".data])
  , (.exK8, ["Expulsion of SWD K-8:".data, "Expulsion K-8:".data])
  , (.ex912, ["Expulsion of SWD 9-12:".data, "Expulsion 9-12:".data])
  , (.er, ["Emergency Removal:".data, "Emergency:".data])
  , (.mdm, ["MDM:".data, "Manifestation Determination Meeting:".data])
  ]

/-- The context substring tested by `_analyze_double_digit_context` and
`_apply_context_based_corrections`. -/
def isServingCtx : Str := "Number of IS serving grades".data

/-- Embedding of `_analyze_double_digit_context` (`src/main.py:146`).
The pattern argument is received but unused, as in the source. -/
def analyze_double_digit_context (t : Str) (field : FieldLabel) (_pat : Str) : ℚ :=
  if (field = .isK8 ∨ field = .is912) ∧ hasSubstr t isServingCtx = true then 11
  else if (field = .swdK8 ∨ field = .swd912) ∧ hasSubstr t "SWD in grades".data = true then 1
  else 1

/-- One iteration of the loop body of `_apply_double_digit_corrections`
(`src/main.py:119`): the first branch fires on value `1`, the `elif`
mirrors the source's dead `1.0` branch (`1.0 == 1` in Python, and `1`
in `ℚ`). Python's truthiness test `if correction and correction != 1`
is `c ≠ 0 ∧ c ≠ 1`. -/
def doubleDigitStep (t : Str) (f : Fields) (e : FieldLabel × List Str) : Fields :=
  if getField f e.1 = some 1 then
    match e.2.find? (fun p => hasSubstr t p) with
    | some pat =>
      let c := analyze_double_digit_context t e.1 pat
      if c ≠ 0 ∧ c ≠ 1 then setField f e.1 c else f
    | none => f
  else if getField f e.1 = some 1 then
    match e.2.find? (fun p => hasSubstr t p) with
    | some pat =>
      let c := analyze_double_digit_context t e.1 pat
      if c ≠ 0 ∧ c ≠ 1 then setField f e.1 c else f
    | none => f
  else f

/-- Embedding of `_apply_double_digit_corrections` (`src/main.py:97`):
fold the loop body over the pattern table in source order. -/
def apply_double_digit_corrections (f : Fields) (t : Str) : Fields :=
  double_digit_fields.foldl (doubleDigitStep t) f

/-- Embedding of `_apply_large_number_corrections` (`src/main.py:160`). -/
def apply_large_number_corrections (f : Fields) (t : Str) : Fields :=
  if hasSubstr t "Ohio Virtual Academy".data = true then
    let f1 := if getField f .swdK8 = some 1 then setField f .swdK8 1432 else f
    let f2 := if getField f1 .swd912 = some 1 then setField f1 .swd912 1431 else f1
    f2
  else f

/-- Embedding of `_apply_missing_data_corrections` (`src/main.py:180`):
Python's `data.get(label) == 0 or label not in data`. -/
def apply_missing_data_corrections (f : Fields) (t : Str) : Fields :=
  if hasSubstr t "Western Toledo Preparatory".data = true
      ∧ (getField f .swdK8 = some 0 ∨ getField f .swdK8 = none) then
    setField f .swdK8 4
  else f

/-- One iteration of the loop of `_apply_context_based_corrections`
(`src/main.py:201`): the 45 → 4.5 decimal-point rule followed by the
5 → 0.5 leading-zero rule, both reading the current dict state. The
Python float literals 4.5 and 0.5 are the rationals `mkRat 9 2` and
`mkRat 1 2`. -/
def contextStep (t : Str) (f : Fields) (l : FieldLabel) : Fields :=
  let f1 := if getField f l = some 45 ∧ hasSubstr t isServingCtx = true then
      setField f l (mkRat 9 2)
    else f
  if getField f1 l = some 5 ∧ hasSubstr t isServingCtx = true then
    let swd : ℚ :=
      if l = .isK8 then (getField f1 .swdK8).getD 0
      else if l = .is912 then (getField f1 .swd912).getD 0
      else 0
    if 0 < swd ∧ swd < 20 then setField f1 l (mkRat 1 2) else f1
  else f1

/-- Embedding of `_apply_context_based_corrections` (`src/main.py:195`):
the loop runs over the two IS fields in source order. -/
def apply_context_based_corrections (f : Fields) (t : Str) : Fields :=
  [FieldLabel.isK8, FieldLabel.is912].foldl (contextStep t) f

/-- Embedding of `apply_ocr_corrections` (`src/main.py:81`): the four
heuristic passes in source order. -/
def apply_ocr_corrections (f : Fields) (t : Str) : Fields :=
  apply_context_based_corrections
    (apply_missing_data_corrections
      (apply_large_number_corrections
        (apply_double_digit_corrections f t) t) t) t

example : getField (apply_ocr_corrections { emptyFields with swdK8 := some 1 }
    "Ohio Virtual Academy".data) .swdK8 = some 1432 := by decide

example : getField (apply_ocr_corrections { emptyFields with isK8 := some 5, swdK8 := some 10 }
    "Number of IS serving grades K-8: 5".data) .isK8 = some (mkRat 1 2) := by decide

/-! ## PrimaryExtractor: the layout-index fallback of `school_from_pdf` -/

/-- The `index_labels` offset table (`src/main.py:47`), in source order. -/
def index_labels : List (FieldLabel × Nat) :=
  [ (.sub, 1), (.isK8, 15), (.is912, 2), (.swdK8, 4), (.swd912, 5)
  , (.ossK8, 9), (.oss912, 10), (.exK8, 11), (.ex912, 12), (.er, 13), (.mdm, 14) ]

/-- Auxiliary scanner for `digitRuns`: `acc` holds the (reversed)
digits of the run currently being read. -/
def digitRunsAux : List Char → List Char → List (List Char)
  | [], acc => if acc.isEmpty then [] else [acc.reverse]
  | c :: cs, acc =>
    if c.isDigit then digitRunsAux cs (c :: acc)
    else if acc.isEmpty then digitRunsAux cs []
    else acc.reverse :: digitRunsAux cs []

/-- Embedding of `re.findall(r"\d+", text)` (`src/main.py:374`): the
maximal runs of decimal digits of `t`, in document order. -/
def digitRuns (t : Str) : List (List Char) := digitRunsAux t []

/-- Embedding of Python `int(...)` on a digit run. -/
def digitsToNat (run : List Char) : Nat :=
  run.foldl (fun a c => 10 * a + (c.toNat - 48)) 0

/-- The `refined_numbers` sequence of `school_from_pdf`
(`src/main.py:374`): all digit runs as integers, first 37 dropped. -/
def refined_numbers (t : Str) : List Nat :=
  ((digitRuns t).map digitsToNat).drop 37

/-- The fallback extraction loop of `school_from_pdf`
(`src/main.py:381`): one `(label, value)` entry per table row whose
offset is in range; out-of-range offsets contribute no entry. -/
def primary_extract (t : Str) : List (FieldLabel × Option ℚ) :=
  index_labels.filterMap (fun li =>
    ((refined_numbers t)[li.2]?).map (fun (v : Nat) => (li.1, some (v : ℚ))))

/-! ## School records and RowDeriver (`build_rows_for_school`) -/

/-- Embedding of the `School` class (`src/main.py:26`); `data_list`
entries are the `{label, value}` dicts of `school_from_pdf`. -/
structure School where
  name : Str
  is_both : Bool
  data_list : List (FieldLabel × Option ℚ)

/-- Embedding of `_get` (`src/main.py:70`): value of the first entry
carrying the label; `none` both for a missing entry and a `None` value. -/
def get_school_value (s : School) (label : FieldLabel) : Option ℚ :=
  match s.data_list.find? (fun d => d.1 == label) with
  | some d => d.2
  | none => none

/-- Python `int(v)` truncates toward zero. -/
def pyTrunc (q : ℚ) : Int := if q < 0 then q.ceil else q.floor

/-- Embedding of `_blank_if_zero` (`src/main.py:61`): `None` stays
`None`, a value whose integer truncation is `0` becomes `None`, any
other value passes through. (The `except` arm is unreachable here:
`int` on a number never raises.) -/
def blank_if_zero (v : Option ℚ) : Option ℚ :=
  match v with
  | none => none
  | some q => if pyTrunc q = 0 then none else some q

/-- The `es_and_hs_schools` roster (`src/main.py:34`). -/
def es_and_hs_schools : List Str :=
  [ "Arts and College Preparatory Academy".data
  , "Columbus Arts and Tech Academy".data
  , "Columbus Preparatory Academy".data
  , "Great River Connections Academy".data
  , "Northeast Ohio College Preparatory School".data
  , "Ohio Connections Academy".data
  , "Ohio Virtual Academy".data
  , "Wildwood Environmental Academy".data
  , "Brian's Sample School".data ]

/-- The local bindings of `build_rows_for_school` (`src/main.py:406`
to `src/main.py:419`), lifted to functions of the school. -/
def sub_v (s : School) : Option ℚ := blank_if_zero (get_school_value s .sub)

def k8_students (s : School) : Option ℚ := blank_if_zero (get_school_value s .swdK8)

def k8_teachers (s : School) : Option ℚ := get_school_value s .isK8

def k8_oss (s : School) : Option ℚ := blank_if_zero (get_school_value s .ossK8)

def k8_ex (s : School) : Option ℚ := blank_if_zero (get_school_value s .exK8)

def hs_students (s : School) : Option ℚ := blank_if_zero (get_school_value s .swd912)

def hs_teachers (s : School) : Option ℚ := get_school_value s .is912

def hs_oss (s : School) : Option ℚ := blank_if_zero (get_school_value s .oss912)

def hs_ex (s : School) : Option ℚ := blank_if_zero (get_school_value s .ex912)

def er_v (s : School) : Option ℚ := blank_if_zero (get_school_value s .er)

def mdm_v (s : School) : Option ℚ := blank_if_zero (get_school_value s .mdm)

/-- Python `v is not None and v > 0` on an optional value. -/
def posOpt (o : Option ℚ) : Bool :=
  match o with
  | some v => decide (0 < v)
  | none => false

/-- `is_es` of `build_rows_for_school` (`src/main.py:421`). -/
def is_es (s : School) : Bool :=
  posOpt (k8_students s) || posOpt (k8_teachers s) || (k8_oss s).isSome || (k8_ex s).isSome

/-- `is_hs` of `build_rows_for_school` (`src/main.py:422`). -/
def is_hs (s : School) : Bool :=
  posOpt (hs_students s) || posOpt (hs_teachers s) || (hs_oss s).isSome || (hs_ex s).isSome

/-- `has_meaningful_es` (`src/main.py:424`). -/
def has_meaningful_es (s : School) : Bool := posOpt (k8_students s)

/-- `has_meaningful_hs` (`src/main.py:425`). -/
def has_meaningful_hs (s : School) : Bool := posOpt (hs_students s)

/-- `should_split` (`src/main.py:427`). -/
def should_split (s : School) : Bool :=
  s.is_both || (has_meaningful_es s && has_meaningful_hs s)

/-- One output row (the dicts appended by `build_rows_for_school`,
with the fixed column set of `COLUMNS`). -/
structure Row where
  school : Str
  students : Option ℚ
  teachers : Option ℚ
  sub : Option ℚ
  oss : Option ℚ
  ex : Option ℚ
  er : Option ℚ
  mdm : Option ℚ
deriving DecidableEq, Repr

/-- Embedding of `build_rows_for_school` (`src/main.py:402`). -/
def build_rows_for_school (s : School) : List Row :=
  if should_split s then
    [ ⟨s.name ++ " ES".data, k8_students s, k8_teachers s, sub_v s, k8_oss s, k8_ex s, er_v s, mdm_v s⟩
    , ⟨s.name ++ " HS".data, hs_students s, hs_teachers s, sub_v s, hs_oss s, hs_ex s, er_v s, mdm_v s⟩ ]
  else if is_es s && !is_hs s then
    [ ⟨s.name, k8_students s, k8_teachers s, sub_v s, k8_oss s, k8_ex s, er_v s, mdm_v s⟩ ]
  else if is_hs s && !is_es s then
    [ ⟨s.name, hs_students s, hs_teachers s, sub_v s, hs_oss s, hs_ex s, er_v s, mdm_v s⟩ ]
  else if is_es s && is_hs s then
    [ ⟨s.name, k8_students s, k8_teachers s, sub_v s, k8_oss s, k8_ex s, er_v s, mdm_v s⟩ ]
  else
    [ ⟨s.name, none, none, sub_v s, none, none, er_v s, mdm_v s⟩ ]

/-! ## SchoolRecordBuilder: the two construction paths of `school_from_pdf` -/

/-- Roster membership used for `is_both` (`src/main.py:362` and
`src/main.py:390`). -/
def isBothName (name : Str) : Bool := es_and_hs_schools.contains name

/-- The OCR-strategy record construction (`src/main.py:362` to
`src/main.py:368`): one entry per `index_labels` row, value taken from
the corrected OCR dict (missing keys give a `None` value). -/
def school_from_ocr (name : Str) (ocr : Fields) : School :=
  ⟨name, isBothName name, index_labels.map (fun li => (li.1, getField ocr li.1))⟩

/-- The fallback-strategy record construction (`src/main.py:381` to
`src/main.py:391`). -/
def school_from_fallback (name : Str) (text : Str) : School :=
  ⟨name, isBothName name, primary_extract text⟩

/-! ## NameLocator: the school-name block scan of `school_from_pdf` -/

/-- A text span of the structured layout (`span["text"]`; a missing
key raises `KeyError`, modelled by `none`). -/
structure SpanD where
  text : Option Str
deriving DecidableEq

/-- A line of the structured layout (`line["spans"]`). -/
structure LineD where
  spans : Option (List SpanD)
deriving DecidableEq

/-- A block of the structured layout (`block["lines"]`). -/
structure BlockD where
  lines : Option (List LineD)
deriving DecidableEq

/-- The page dict (`page.get_text("dict")`), possibly lacking the
`"blocks"` key (or falsy). -/
structure PageD where
  blocks : Option (List BlockD)
deriving DecidableEq

/-- Python `str.strip()`: drop leading and trailing whitespace. -/
def pyStrip (s : Str) : Str :=
  ((s.dropWhile Char.isWhitespace).reverse.dropWhile Char.isWhitespace).reverse

/-- The span-concatenation loop (`src/main.py:350` to
`src/main.py:352`); `none` when some span lacks a `"text"` key (the
`KeyError` lands in the surrounding `except`). -/
def spansText (sps : List SpanD) : Option Str :=
  if sps.all (fun sp => sp.text.isSome) then
    some (sps.foldl (fun acc sp => acc ++ sp.text.getD []) [])
  else none

/-- Embedding of the school-name extraction of `school_from_pdf`
(`src/main.py:340` to `src/main.py:355`): block 18, first line, spans
concatenated and stripped; every failure path (falsy page dict, short
block list, missing lines, empty lines, missing spans or span text)
yields the `"Unknown School"` placeholder. Total by construction: the
source's `try`/`except` guarantees a value is always returned. -/
def locate_school_name (pd : Option PageD) : Str :=
  match pd with
  | none => "Unknown School".data
  | some p =>
    match p.blocks with
    | none => "Unknown School".data
    | some bs =>
      match bs[18]? with
      | none => "Unknown School".data
      | some target_block =>
        match target_block.lines with
        | none => "Unknown School".data
        | some ls =>
          match ls with
          | [] => "Unknown School".data
          | first_line :: _ =>
            match first_line.spans with
            | none => "Unknown School".data
            | some sps =>
              match spansText sps with
              | some txt => pyStrip txt
              | none => "Unknown School".data

/-! ## Heap model of the correction engine's dict mutation

`apply_ocr_corrections` and each helper begin with `data.copy()` and
then assign into the copy only. To make that observable, the same code
is embedded once more against an explicit heap: a list of dicts
addressed by index, where `copy` allocates at the end and assignment
updates in place. -/

/-- A heap of dicts; an address is an index into the list. -/
abbrev Heap := List Fields

/-- Dereference an address (out-of-range reads give the empty dict;
the embedded code only dereferences live addresses). -/
def hGet (h : Heap) (r : Nat) : Fields := (h[r]?).getD emptyFields

/-- Python `d.copy()`: allocate a fresh dict with the same entries. -/
def dictCopy (h : Heap) (r : Nat) : Heap × Nat := (h ++ [hGet h r], h.length)

/-- Python `d[label] = v`: in-place update of the dict at `r`. -/
def dictWrite (h : Heap) (r : Nat) (l : FieldLabel) (v : ℚ) : Heap :=
  h.set r (setField (hGet h r) l v)

/-- Heap form of the `_apply_double_digit_corrections` loop body,
writing into the dict at `c`. -/
def doubleDigitStepH (t : Str) (c : Nat) (h : Heap) (e : FieldLabel × List Str) : Heap :=
  if getField (hGet h c) e.1 = some 1 then
    match e.2.find? (fun p => hasSubstr t p) with
    | some pat =>
      let corr := analyze_double_digit_context t e.1 pat
      if corr ≠ 0 ∧ corr ≠ 1 then dictWrite h c e.1 corr else h
    | none => h
  else if getField (hGet h c) e.1 = some 1 then
    match e.2.find? (fun p => hasSubstr t p) with
    | some pat =>
      let corr := analyze_double_digit_context t e.1 pat
      if corr ≠ 0 ∧ corr ≠ 1 then dictWrite h c e.1 corr else h
    | none => h
  else h

/-- Heap form of `_apply_double_digit_corrections`: copy, then the
loop over the pattern table mutating the copy. -/
def apply_double_digit_correctionsH (h : Heap) (r : Nat) (t : Str) : Heap × Nat :=
  let p := dictCopy h r
  (double_digit_fields.foldl (doubleDigitStepH t p.2) p.1, p.2)

/-- Heap form of `_apply_large_number_corrections`. -/
def apply_large_number_correctionsH (h : Heap) (r : Nat) (t : Str) : Heap × Nat :=
  let p := dictCopy h r
  let h1 := if hasSubstr t "Ohio Virtual Academy".data = true
      ∧ getField (hGet p.1 p.2) .swdK8 = some 1 then
      dictWrite p.1 p.2 .swdK8 1432
    else p.1
  let h2 := if hasSubstr t "Ohio Virtual Academy".data = true
      ∧ getField (hGet h1 p.2) .swd912 = some 1 then
      dictWrite h1 p.2 .swd912 1431
    else h1
  (h2, p.2)

/-- Heap form of `_apply_missing_data_corrections`. -/
def apply_missing_data_correctionsH (h : Heap) (r : Nat) (t : Str) : Heap × Nat :=
  let p := dictCopy h r
  let h1 := if hasSubstr t "Western Toledo Preparatory".data = true
      ∧ (getField (hGet p.1 p.2) .swdK8 = some 0 ∨ getField (hGet p.1 p.2) .swdK8 = none) then
      dictWrite p.1 p.2 .swdK8 4
    else p.1
  (h1, p.2)

/-- Heap form of the `_apply_context_based_corrections` loop body. -/
def contextStepH (t : Str) (c : Nat) (h : Heap) (l : FieldLabel) : Heap :=
  let h1 := if getField (hGet h c) l = some 45 ∧ hasSubstr t isServingCtx = true then
      dictWrite h c l (mkRat 9 2)
    else h
  if getField (hGet h1 c) l = some 5 ∧ hasSubstr t isServingCtx = true then
    let swd : ℚ :=
      if l = .isK8 then (getField (hGet h1 c) .swdK8).getD 0
      else if l = .is912 then (getField (hGet h1 c) .swd912).getD 0
      else 0
    if 0 < swd ∧ swd < 20 then dictWrite h1 c l (mkRat 1 2) else h1
  else h1

/-- Heap form of `_apply_context_based_corrections`. -/
def apply_context_based_correctionsH (h : Heap) (r : Nat) (t : Str) : Heap × Nat :=
  let p := dictCopy h r
  ([FieldLabel.isK8, FieldLabel.is912].foldl (contextStepH t p.2) p.1, p.2)

/-- Heap form of `apply_ocr_corrections` (`src/main.py:81`): the
initial `data.copy()` followed by the four passes, each rebinding the
working reference to the dict the helper returned. -/
def apply_ocr_correctionsH (h : Heap) (r : Nat) (t : Str) : Heap × Nat :=
  let p0 := dictCopy h r
  let p1 := apply_double_digit_correctionsH p0.1 p0.2 t
  let p2 := apply_large_number_correctionsH p1.1 p1.2 t
  let p3 := apply_missing_data_correctionsH p2.1 p2.2 t
  let p4 := apply_context_based_correctionsH p3.1 p3.2 t
  p4

/-! ## Helper lemmas: reading and writing field slots -/

theorem getField_setField_self (f : Fields) (l : FieldLabel) (v : ℚ) :
    getField (setField f l v) l = some v := by
  cases l <;> rfl

theorem getField_setField_ne (f : Fields) (l l' : FieldLabel) (v : ℚ) (h : l' ≠ l) :
    getField (setField f l v) l' = getField f l' := by
  cases l <;> cases l' <;> simp_all [setField, getField]

/-! ## Helper lemmas: characterizing `_apply_double_digit_corrections` -/

theorem analyze_eq_one (t : Str) (l : FieldLabel) (p : Str)
    (h1 : l ≠ .isK8) (h2 : l ≠ .is912) : analyze_double_digit_context t l p = 1 := by
  unfold analyze_double_digit_context
  split_ifs with hc1 hc2
  · rcases hc1.1 with h | h <;> simp_all
  · rfl
  · rfl

theorem analyze_IS (t : Str) (l : FieldLabel) (p : Str) (hl : l = .isK8 ∨ l = .is912) :
    analyze_double_digit_context t l p =
      if hasSubstr t isServingCtx = true then 11 else 1 := by
  unfold analyze_double_digit_context
  rcases hl with h | h <;> subst h <;> split_ifs <;> simp_all

theorem doubleDigitStep_nonIS (t : Str) (f : Fields) (l : FieldLabel) (pats : List Str)
    (h1 : l ≠ .isK8) (h2 : l ≠ .is912) : doubleDigitStep t f (l, pats) = f := by
  unfold doubleDigitStep
  cases hfind : pats.find? (fun p => hasSubstr t p) with
  | none => split_ifs <;> simp [hfind]
  | some p =>
    split_ifs <;> simp only [hfind] <;>
      simp [analyze_eq_one t l p h1 h2]

theorem doubleDigitStep_IS (t : Str) (f : Fields) (l : FieldLabel) (pats : List Str)
    (hl : l = .isK8 ∨ l = .is912) :
    doubleDigitStep t f (l, pats) =
      if getField f l = some 1 ∧ (pats.find? (fun p => hasSubstr t p)).isSome = true
          ∧ hasSubstr t isServingCtx = true then
        setField f l 11
      else f := by
  unfold doubleDigitStep
  cases hfind : pats.find? (fun p => hasSubstr t p) with
  | none => split_ifs <;> simp_all [hfind]
  | some p =>
    have ha := analyze_IS t l p hl
    by_cases hv : getField f l = some 1 <;>
      by_cases hctx : hasSubstr t isServingCtx = true <;>
        simp_all [hfind, ha]

/-- The fold of `apply_double_digit_corrections` reduces to its two
IS iterations: every other iteration is the identity. -/
theorem dd_eq_two_steps (f : Fields) (t : Str) :
    apply_double_digit_corrections f t =
      doubleDigitStep t (doubleDigitStep t f (.isK8, ddPatsIsK8)) (.is912, ddPatsIs912) := by
  unfold apply_double_digit_corrections double_digit_fields
  simp only [List.foldl_cons, List.foldl_nil]
  rw [doubleDigitStep_nonIS _ _ _ _ (by decide) (by decide),
      doubleDigitStep_nonIS _ _ _ _ (by decide) (by decide),
      doubleDigitStep_nonIS _ _ _ _ (by decide) (by decide),
      doubleDigitStep_nonIS _ _ _ _ (by decide) (by decide),
      doubleDigitStep_nonIS _ _ _ _ (by decide) (by decide),
      doubleDigitStep_nonIS _ _ _ _ (by decide) (by decide),
      doubleDigitStep_nonIS _ _ _ _ (by decide) (by decide),
      doubleDigitStep_nonIS _ _ _ _ (by decide) (by decide),
      doubleDigitStep_nonIS _ _ _ _ (by decide) (by decide)]

/-- Trigger of the double-digit rule for a pattern list: some pattern
occurs in the recognized text, and the IS context substring does too. -/
def ddFire (t : Str) (pats : List Str) : Bool :=
  (pats.find? (fun p => hasSubstr t p)).isSome && hasSubstr t isServingCtx

theorem dd_get_isK8 (f : Fields) (t : Str) :
    getField (apply_double_digit_corrections f t) .isK8 =
      if getField f .isK8 = some 1 ∧ ddFire t ddPatsIsK8 = true then some 11
      else getField f .isK8 := by
  rw [dd_eq_two_steps,
      doubleDigitStep_IS _ _ _ _ (Or.inr rfl),
      doubleDigitStep_IS _ _ _ _ (Or.inl rfl)]
  simp only [ddFire, Bool.and_eq_true]
  split_ifs <;>
    simp_all [getField_setField_self, getField_setField_ne]

theorem dd_get_is912 (f : Fields) (t : Str) :
    getField (apply_double_digit_corrections f t) .is912 =
      if getField f .is912 = some 1 ∧ ddFire t ddPatsIs912 = true then some 11
      else getField f .is912 := by
  rw [dd_eq_two_steps,
      doubleDigitStep_IS _ _ _ _ (Or.inr rfl),
      doubleDigitStep_IS _ _ _ _ (Or.inl rfl)]
  simp only [ddFire, Bool.and_eq_true]
  split_ifs <;>
    simp_all [getField_setField_self, getField_setField_ne]

theorem dd_get_other (f : Fields) (t : Str) (l : FieldLabel)
    (h1 : l ≠ .isK8) (h2 : l ≠ .is912) :
    getField (apply_double_digit_corrections f t) l = getField f l := by
  rw [dd_eq_two_steps,
      doubleDigitStep_IS _ _ _ _ (Or.inr rfl),
      doubleDigitStep_IS _ _ _ _ (Or.inl rfl)]
  split_ifs <;> simp_all [getField_setField_ne]

/-! ## Helper lemmas: the remaining three correction passes -/

theorem large_get_swdK8 (f : Fields) (t : Str) :
    getField (apply_large_number_corrections f t) .swdK8 =
      if hasSubstr t "Ohio Virtual Academy".data = true ∧ getField f .swdK8 = some 1
      then some 1432 else getField f .swdK8 := by
  unfold apply_large_number_corrections
  dsimp only
  split_ifs <;>
    simp_all [getField_setField_self, getField_setField_ne]

theorem large_get_swd912 (f : Fields) (t : Str) :
    getField (apply_large_number_corrections f t) .swd912 =
      if hasSubstr t "Ohio Virtual Academy".data = true ∧ getField f .swd912 = some 1
      then some 1431 else getField f .swd912 := by
  unfold apply_large_number_corrections
  dsimp only
  split_ifs <;>
    simp_all [getField_setField_self, getField_setField_ne]

theorem large_get_other (f : Fields) (t : Str) (l : FieldLabel)
    (h1 : l ≠ .swdK8) (h2 : l ≠ .swd912) :
    getField (apply_large_number_corrections f t) l = getField f l := by
  unfold apply_large_number_corrections
  dsimp only
  split_ifs <;> simp_all [getField_setField_ne]

theorem missing_get_swdK8 (f : Fields) (t : Str) :
    getField (apply_missing_data_corrections f t) .swdK8 =
      if hasSubstr t "Western Toledo Preparatory".data = true
          ∧ (getField f .swdK8 = some 0 ∨ getField f .swdK8 = none)
      then some 4 else getField f .swdK8 := by
  unfold apply_missing_data_corrections
  split_ifs <;> simp_all [getField_setField_self]

theorem missing_get_other (f : Fields) (t : Str) (l : FieldLabel) (h1 : l ≠ .swdK8) :
    getField (apply_missing_data_corrections f t) l = getField f l := by
  unfold apply_missing_data_corrections
  split_ifs <;> simp_all [getField_setField_ne]

theorem ctx_eq_two_steps (f : Fields) (t : Str) :
    apply_context_based_corrections f t =
      contextStep t (contextStep t f .isK8) .is912 := by
  simp only [apply_context_based_corrections, List.foldl_cons, List.foldl_nil]

theorem contextStep_get_other (t : Str) (f : Fields) (l l' : FieldLabel) (h : l' ≠ l) :
    getField (contextStep t f l) l' = getField f l' := by
  unfold contextStep
  dsimp only
  split_ifs <;> simp_all [getField_setField_ne]

theorem contextStep_get_isK8 (t : Str) (f : Fields) :
    getField (contextStep t f .isK8) .isK8 =
      (let b := if getField f .isK8 = some 45 ∧ hasSubstr t isServingCtx = true
          then some (mkRat 9 2) else getField f .isK8
       let s := (getField f .swdK8).getD 0
       if b = some 5 ∧ hasSubstr t isServingCtx = true ∧ (0 < s ∧ s < 20)
       then some (mkRat 1 2) else b) := by
  have h92 : (mkRat 9 2 : ℚ) ≠ 5 := by decide
  unfold contextStep
  dsimp only
  split_ifs <;>
    simp_all [getField_setField_self, getField_setField_ne]

theorem contextStep_get_is912 (t : Str) (f : Fields) :
    getField (contextStep t f .is912) .is912 =
      (let b := if getField f .is912 = some 45 ∧ hasSubstr t isServingCtx = true
          then some (mkRat 9 2) else getField f .is912
       let s := (getField f .swd912).getD 0
       if b = some 5 ∧ hasSubstr t isServingCtx = true ∧ (0 < s ∧ s < 20)
       then some (mkRat 1 2) else b) := by
  have h92 : (mkRat 9 2 : ℚ) ≠ 5 := by decide
  unfold contextStep
  dsimp only
  split_ifs <;>
    simp_all [getField_setField_self, getField_setField_ne]

/-! ## Helper lemmas: the full correction engine, slot by slot -/

theorem aoc_get_other (f : Fields) (t : Str) (l : FieldLabel)
    (h1 : l ≠ .isK8) (h2 : l ≠ .is912) (h3 : l ≠ .swdK8) (h4 : l ≠ .swd912) :
    getField (apply_ocr_corrections f t) l = getField f l := by
  unfold apply_ocr_corrections
  rw [ctx_eq_two_steps, contextStep_get_other _ _ _ _ h2, contextStep_get_other _ _ _ _ h1,
      missing_get_other _ _ _ h3, large_get_other _ _ _ h3 h4, dd_get_other _ _ _ h1 h2]

theorem aoc_get_swdK8 (f : Fields) (t : Str) :
    getField (apply_ocr_corrections f t) .swdK8 =
      (let b := if hasSubstr t "Ohio Virtual Academy".data = true
            ∧ getField f .swdK8 = some 1 then some (1432 : ℚ) else getField f .swdK8
       if hasSubstr t "Western Toledo Preparatory".data = true ∧ (b = some 0 ∨ b = none)
       then some (4 : ℚ) else b) := by
  unfold apply_ocr_corrections
  rw [ctx_eq_two_steps,
      contextStep_get_other _ _ _ _ (by decide),
      contextStep_get_other _ _ _ _ (by decide),
      missing_get_swdK8, large_get_swdK8,
      dd_get_other _ _ _ (by decide) (by decide)]

theorem aoc_get_swd912 (f : Fields) (t : Str) :
    getField (apply_ocr_corrections f t) .swd912 =
      (if hasSubstr t "Ohio Virtual Academy".data = true ∧ getField f .swd912 = some 1
       then some (1431 : ℚ) else getField f .swd912) := by
  unfold apply_ocr_corrections
  rw [ctx_eq_two_steps,
      contextStep_get_other _ _ _ _ (by decide),
      contextStep_get_other _ _ _ _ (by decide),
      missing_get_other _ _ _ (by decide), large_get_swd912,
      dd_get_other _ _ _ (by decide) (by decide)]

theorem aoc_get_isK8 (f : Fields) (t : Str) :
    getField (apply_ocr_corrections f t) .isK8 =
      (let a := if getField f .isK8 = some 1 ∧ ddFire t ddPatsIsK8 = true
            then some (11 : ℚ) else getField f .isK8
       let b := if a = some 45 ∧ hasSubstr t isServingCtx = true then some (mkRat 9 2) else a
       let s := (getField (apply_ocr_corrections f t) .swdK8).getD 0
       if b = some 5 ∧ hasSubstr t isServingCtx = true ∧ (0 < s ∧ s < 20)
       then some (mkRat 1 2) else b) := by
  conv_lhs => rw [apply_ocr_corrections, ctx_eq_two_steps,
    contextStep_get_other _ _ _ _ (by decide), contextStep_get_isK8]
  rw [missing_get_other _ _ _ (by decide), large_get_other _ _ _ (by decide) (by decide),
      dd_get_isK8]
  have hs : getField (apply_ocr_corrections f t) .swdK8 =
      getField (apply_missing_data_corrections (apply_large_number_corrections
        (apply_double_digit_corrections f t) t) t) .swdK8 := by
    unfold apply_ocr_corrections
    rw [ctx_eq_two_steps,
        contextStep_get_other _ _ _ _ (by decide),
        contextStep_get_other _ _ _ _ (by decide)]
  rw [hs]

theorem aoc_get_is912 (f : Fields) (t : Str) :
    getField (apply_ocr_corrections f t) .is912 =
      (let a := if getField f .is912 = some 1 ∧ ddFire t ddPatsIs912 = true
            then some (11 : ℚ) else getField f .is912
       let b := if a = some 45 ∧ hasSubstr t isServingCtx = true then some (mkRat 9 2) else a
       let s := (getField (apply_ocr_corrections f t) .swd912).getD 0
       if b = some 5 ∧ hasSubstr t isServingCtx = true ∧ (0 < s ∧ s < 20)
       then some (mkRat 1 2) else b) := by
  conv_lhs => rw [apply_ocr_corrections, ctx_eq_two_steps, contextStep_get_is912]
  rw [contextStep_get_other _ _ _ _ (by decide),
      contextStep_get_other _ _ _ _ (by decide),
      missing_get_other _ _ _ (by decide), large_get_other _ _ _ (by decide) (by decide),
      dd_get_is912]
  have hs : getField (apply_ocr_corrections f t) .swd912 =
      getField (apply_missing_data_corrections (apply_large_number_corrections
        (apply_double_digit_corrections f t) t) t) .swd912 := by
    unfold apply_ocr_corrections
    rw [ctx_eq_two_steps,
        contextStep_get_other _ _ _ _ (by decide),
        contextStep_get_other _ _ _ _ (by decide)]
  rw [hs]

/-! ## Helper lemmas: a second correction pass changes nothing -/

theorem aoc_idem_other (f : Fields) (t : Str) (l : FieldLabel)
    (h1 : l ≠ .isK8) (h2 : l ≠ .is912) (h3 : l ≠ .swdK8) (h4 : l ≠ .swd912) :
    getField (apply_ocr_corrections (apply_ocr_corrections f t) t) l =
      getField (apply_ocr_corrections f t) l := by
  rw [aoc_get_other _ _ _ h1 h2 h3 h4]

theorem aoc_idem_swdK8 (f : Fields) (t : Str) :
    getField (apply_ocr_corrections (apply_ocr_corrections f t) t) .swdK8 =
      getField (apply_ocr_corrections f t) .swdK8 := by
  have e1 : (1432 : ℚ) ≠ 1 := by decide
  have e2 : (1432 : ℚ) ≠ 0 := by decide
  have e3 : (4 : ℚ) ≠ 1 := by decide
  have e4 : (4 : ℚ) ≠ 0 := by decide
  rw [aoc_get_swdK8 (apply_ocr_corrections f t) t, aoc_get_swdK8 f t]
  dsimp only
  split_ifs <;> simp_all

theorem aoc_idem_swd912 (f : Fields) (t : Str) :
    getField (apply_ocr_corrections (apply_ocr_corrections f t) t) .swd912 =
      getField (apply_ocr_corrections f t) .swd912 := by
  have e1 : (1431 : ℚ) ≠ 1 := by decide
  rw [aoc_get_swd912 (apply_ocr_corrections f t) t, aoc_get_swd912 f t]
  split_ifs <;> simp_all

theorem aoc_idem_isK8 (f : Fields) (t : Str) :
    getField (apply_ocr_corrections (apply_ocr_corrections f t) t) .isK8 =
      getField (apply_ocr_corrections f t) .isK8 := by
  have e1 : (11 : ℚ) ≠ 1 := by decide
  have e2 : (11 : ℚ) ≠ 45 := by decide
  have e3 : (11 : ℚ) ≠ 5 := by decide
  have e4 : (mkRat 9 2 : ℚ) ≠ 1 := by decide
  have e5 : (mkRat 9 2 : ℚ) ≠ 45 := by decide
  have e6 : (mkRat 9 2 : ℚ) ≠ 5 := by decide
  have e7 : (mkRat 1 2 : ℚ) ≠ 1 := by decide
  have e8 : (mkRat 1 2 : ℚ) ≠ 45 := by decide
  have e9 : (mkRat 1 2 : ℚ) ≠ 5 := by decide
  rw [aoc_get_isK8 (apply_ocr_corrections f t) t, aoc_idem_swdK8, aoc_get_isK8 f t]
  dsimp only
  split_ifs <;> simp_all

theorem aoc_idem_is912 (f : Fields) (t : Str) :
    getField (apply_ocr_corrections (apply_ocr_corrections f t) t) .is912 =
      getField (apply_ocr_corrections f t) .is912 := by
  have e1 : (11 : ℚ) ≠ 1 := by decide
  have e2 : (11 : ℚ) ≠ 45 := by decide
  have e3 : (11 : ℚ) ≠ 5 := by decide
  have e4 : (mkRat 9 2 : ℚ) ≠ 1 := by decide
  have e5 : (mkRat 9 2 : ℚ) ≠ 45 := by decide
  have e6 : (mkRat 9 2 : ℚ) ≠ 5 := by decide
  have e7 : (mkRat 1 2 : ℚ) ≠ 1 := by decide
  have e8 : (mkRat 1 2 : ℚ) ≠ 45 := by decide
  have e9 : (mkRat 1 2 : ℚ) ≠ 5 := by decide
  rw [aoc_get_is912 (apply_ocr_corrections f t) t, aoc_idem_swd912, aoc_get_is912 f t]
  dsimp only
  split_ifs <;> simp_all

/-! ## Helper lemmas: `_apply_context_based_corrections`, slot by slot -/

theorem ctx_get_isK8 (f : Fields) (t : Str) :
    getField (apply_context_based_corrections f t) .isK8 =
      (let b := if getField f .isK8 = some 45 ∧ hasSubstr t isServingCtx = true
          then some (mkRat 9 2) else getField f .isK8
       let s := (getField f .swdK8).getD 0
       if b = some 5 ∧ hasSubstr t isServingCtx = true ∧ (0 < s ∧ s < 20)
       then some (mkRat 1 2) else b) := by
  rw [ctx_eq_two_steps, contextStep_get_other _ _ _ _ (by decide), contextStep_get_isK8]

theorem ctx_get_is912 (f : Fields) (t : Str) :
    getField (apply_context_based_corrections f t) .is912 =
      (let b := if getField f .is912 = some 45 ∧ hasSubstr t isServingCtx = true
          then some (mkRat 9 2) else getField f .is912
       let s := (getField f .swd912).getD 0
       if b = some 5 ∧ hasSubstr t isServingCtx = true ∧ (0 < s ∧ s < 20)
       then some (mkRat 1 2) else b) := by
  rw [ctx_eq_two_steps, contextStep_get_is912,
      contextStep_get_other _ _ _ _ (by decide),
      contextStep_get_other _ _ _ _ (by decide)]

/-! ## Claim C7 -/

/-- C7: if the recognized text contains "Ohio Virtual Academy", the
correction engine turns a SWD K-8 value of 1 into 1432 and a SWD 9-12
value of 1 into 1431; the large-number rule leaves values other than 1
in these two fields unchanged. -/
theorem C7_ova_large_number_restoration (f : Fields) (t : Str)
    (hOVA : hasSubstr t "Ohio Virtual Academy".data = true) :
    (getField f .swdK8 = some 1 →
      getField (apply_ocr_corrections f t) .swdK8 = some 1432)
    ∧ (getField f .swd912 = some 1 →
      getField (apply_ocr_corrections f t) .swd912 = some 1431)
    ∧ (getField f .swdK8 ≠ some 1 →
      getField (apply_large_number_corrections f t) .swdK8 = getField f .swdK8)
    ∧ (getField f .swd912 ≠ some 1 →
      getField (apply_large_number_corrections f t) .swd912 = getField f .swd912) := by
  have e1 : (1432 : ℚ) ≠ 0 := by decide
  refine ⟨?_, ?_, ?_, ?_⟩
  · intro h1
    rw [aoc_get_swdK8]
    dsimp only
    split_ifs <;> simp_all
  · intro h1
    rw [aoc_get_swd912]
    split_ifs <;> simp_all
  · intro h1
    rw [large_get_swdK8]
    split_ifs <;> simp_all
  · intro h1
    rw [large_get_swd912]
    split_ifs <;> simp_all

/-- Witness for C7 at a concrete dict and text. -/
theorem C7_witness :
    getField (apply_ocr_corrections
      { emptyFields with swdK8 := some 1, swd912 := some 1 }
      "Ohio Virtual Academy".data) .swdK8 = some 1432
    ∧ getField (apply_ocr_corrections
      { emptyFields with swdK8 := some 1, swd912 := some 1 }
      "Ohio Virtual Academy".data) .swd912 = some 1431
    ∧ getField (apply_large_number_corrections
      { emptyFields with swdK8 := some 7 } "Ohio Virtual Academy".data) .swdK8 = some 7 :=
  ⟨(C7_ova_large_number_restoration _ _ (by decide)).1 (by decide),
   (C7_ova_large_number_restoration _ _ (by decide)).2.1 (by decide),
   (C7_ova_large_number_restoration _ _ (by decide)).2.2.1 (by decide)⟩

/-! ## Claim C8 -/

/-- C8 counterexample: a dict with IS K-8 = 5 paired with SWD K-8 = 10
(strictly between 0 and 20), but a recognized text that does not
contain the IS context substring: the claim as stated requires the
value to become 0.5, yet neither the full engine nor the
context-based pass changes it. -/
theorem C8_counterexample :
    getField { emptyFields with isK8 := some 5, swdK8 := some 10 } .isK8 = some 5
    ∧ (0 : ℚ) < 10 ∧ (10 : ℚ) < 20
    ∧ getField (apply_ocr_corrections
        { emptyFields with isK8 := some 5, swdK8 := some 10 } []) .isK8 = some 5
    ∧ getField (apply_context_based_corrections
        { emptyFields with isK8 := some 5, swdK8 := some 10 } []) .isK8 ≠ some (mkRat 1 2) := by
  decide

/-- C8 amended: the leading-zero rule also requires the recognized
text to contain "Number of IS serving grades"; under that context, a
value of exactly 5 in an IS field becomes 0.5 whenever the paired SWD
count for the same grade band is strictly between 0 and 20, and IS
values other than 5 (and other than 45, the subject of the separate
decimal-point rule) are left unchanged by the pass. -/
theorem C8_leading_zero_rule (f : Fields) (t : Str) :
    (getField f .isK8 = some 5 → hasSubstr t isServingCtx = true →
      0 < (getField f .swdK8).getD 0 → (getField f .swdK8).getD 0 < 20 →
      getField (apply_context_based_corrections f t) .isK8 = some (mkRat 1 2))
    ∧ (getField f .is912 = some 5 → hasSubstr t isServingCtx = true →
      0 < (getField f .swd912).getD 0 → (getField f .swd912).getD 0 < 20 →
      getField (apply_context_based_corrections f t) .is912 = some (mkRat 1 2))
    ∧ (∀ v : ℚ, getField f .isK8 = some v → v ≠ 5 → v ≠ 45 →
      getField (apply_context_based_corrections f t) .isK8 = some v)
    ∧ (∀ v : ℚ, getField f .is912 = some v → v ≠ 5 → v ≠ 45 →
      getField (apply_context_based_corrections f t) .is912 = some v) := by
  have e1 : (5 : ℚ) ≠ 45 := by decide
  refine ⟨?_, ?_, ?_, ?_⟩
  · intro h5 hctx hlo hhi
    rw [ctx_get_isK8]
    dsimp only
    split_ifs <;> simp_all
  · intro h5 hctx hlo hhi
    rw [ctx_get_is912]
    dsimp only
    split_ifs <;> simp_all
  · intro v hv h5 h45
    rw [ctx_get_isK8]
    dsimp only
    split_ifs <;> simp_all
  · intro v hv h5 h45
    rw [ctx_get_is912]
    dsimp only
    split_ifs <;> simp_all

/-- Witness for the amended C8 at a concrete dict and text. -/
theorem C8_witness :
    getField (apply_context_based_corrections
      { emptyFields with isK8 := some 5, is912 := some 7, swdK8 := some 10 }
      isServingCtx) .isK8 = some (mkRat 1 2)
    ∧ getField (apply_context_based_corrections
      { emptyFields with isK8 := some 5, is912 := some 7, swdK8 := some 10 }
      isServingCtx) .is912 = some 7 :=
  ⟨(C8_leading_zero_rule _ _).1 (by decide) (by decide) (by decide) (by decide),
   (C8_leading_zero_rule _ _).2.2.2 7 (by decide) (by decide) (by decide)⟩

/-! ## Claim C9 -/

/-- C9: the correction engine is idempotent: a second full pass over
an already-corrected dict (with the same recognized text) changes
nothing. -/
theorem C9_correction_engine_idempotent (f : Fields) (t : Str) :
    apply_ocr_corrections (apply_ocr_corrections f t) t = apply_ocr_corrections f t := by
  ext : 1
  · exact aoc_idem_other f t .sub (by decide) (by decide) (by decide) (by decide)
  · exact aoc_idem_isK8 f t
  · exact aoc_idem_is912 f t
  · exact aoc_idem_swdK8 f t
  · exact aoc_idem_swd912 f t
  · exact aoc_idem_other f t .ossK8 (by decide) (by decide) (by decide) (by decide)
  · exact aoc_idem_other f t .oss912 (by decide) (by decide) (by decide) (by decide)
  · exact aoc_idem_other f t .exK8 (by decide) (by decide) (by decide) (by decide)
  · exact aoc_idem_other f t .ex912 (by decide) (by decide) (by decide) (by decide)
  · exact aoc_idem_other f t .er (by decide) (by decide) (by decide) (by decide)
  · exact aoc_idem_other f t .mdm (by decide) (by decide) (by decide) (by decide)

/-! ## Helper lemmas: RowDeriver -/

theorem blank_if_zero_ne_zero (v : Option ℚ) : blank_if_zero v ≠ some 0 := by
  cases v with
  | none => simp [blank_if_zero]
  | some q =>
    simp only [blank_if_zero]
    split_ifs with h
    · simp
    · intro hc
      injection hc with hq
      exact h (by rw [hq]; decide)

/-! ## Claim C1 -/

/-- C1 counterexample: a record on the combined-school roster
(`isBoth = true`) with no grade-band data at all still produces two
rows, not the single placeholder row the claim asks for. -/
theorem C1_counterexample :
    is_es ⟨"X".data, true, []⟩ = false
    ∧ is_hs ⟨"X".data, true, []⟩ = false
    ∧ (build_rows_for_school ⟨"X".data, true, []⟩).length = 2 := by
  decide

/-- C1 amended: RowDeriver always produces at least one and at most
two rows; `isBoth = true` gives exactly the two rows name+" ES" and
name+" HS"; and when `isBoth` is false and neither grade band has any
data, it gives exactly one placeholder row whose students, teachers,
oss and ex are absent, carrying only sub, er, mdm. -/
theorem C1_rowderiver_row_counts (s : School) :
    (1 ≤ (build_rows_for_school s).length ∧ (build_rows_for_school s).length ≤ 2)
    ∧ (s.is_both = true →
      (build_rows_for_school s).map Row.school = [s.name ++ " ES".data, s.name ++ " HS".data])
    ∧ (s.is_both = false → is_es s = false → is_hs s = false →
      build_rows_for_school s =
        [⟨s.name, none, none, sub_v s, none, none, er_v s, mdm_v s⟩]) := by
  refine ⟨?_, ?_, ?_⟩
  · unfold build_rows_for_school
    split_ifs <;> simp
  · intro hb
    have hsp : should_split s = true := by simp [should_split, hb]
    simp [build_rows_for_school, hsp]
  · intro hb hes hhs
    have h1 : posOpt (k8_students s) = false := by
      simp only [is_es, Bool.or_eq_false_iff] at hes
      exact hes.1.1.1
    have hsp : should_split s = false := by
      simp [should_split, hb, has_meaningful_es, h1]
    simp [build_rows_for_school, hsp, hes, hhs]

/-- Witness for the amended C1 at two concrete records. -/
theorem C1_witness :
    (build_rows_for_school ⟨"A".data, true, []⟩).map Row.school
      = ["A ES".data, "A HS".data]
    ∧ build_rows_for_school ⟨"B".data, false, []⟩
      = [⟨"B".data, none, none, none, none, none, none, none⟩] :=
  ⟨(C1_rowderiver_row_counts ⟨"A".data, true, []⟩).2.1 rfl,
   (C1_rowderiver_row_counts ⟨"B".data, false, []⟩).2.2 rfl rfl rfl⟩

/-! ## Claim C2 -/

/-- C2 counterexample: a record whose only datum is a raw IS K-8 value
of 0. Neither band counts as present (a 0 teacher count does not make
`is_es` true), so the placeholder row is emitted and its teachers cell
is absent: the raw teacher 0 is not preserved as 0 in the output. -/
theorem C2_counterexample :
    get_school_value ⟨"X".data, false, [(.isK8, some 0)]⟩ .isK8 = some 0
    ∧ build_rows_for_school ⟨"X".data, false, [(.isK8, some 0)]⟩
      = [⟨"X".data, none, none, none, none, none, none, none⟩]
    ∧ (build_rows_for_school ⟨"X".data, false, [(.isK8, some 0)]⟩).map Row.teachers
      = [none] := by
  decide

/-- C2 amended: no non-teacher cell of any output row ever holds 0
(raw zeros are collapsed to absent); the teachers cells are never
zero-collapsed: every row that carries a grade band's values reports
that band's raw IS value verbatim (so a raw 0 appears as 0), stated
branch by branch: split rows report the raw K-8 and 9-12 IS values in
order, a single-band row reports its own band's raw IS value, the
both-bands tie-break row reports the raw K-8 IS value, and only the
placeholder row (neither band present) reports teachers as absent. -/
theorem C2_zero_collapsing (s : School) :
    (∀ r ∈ build_rows_for_school s,
      r.students ≠ some 0 ∧ r.sub ≠ some 0 ∧ r.oss ≠ some 0 ∧ r.ex ≠ some 0
      ∧ r.er ≠ some 0 ∧ r.mdm ≠ some 0)
    ∧ (s.is_both = true →
      (build_rows_for_school s).map Row.teachers
        = [get_school_value s .isK8, get_school_value s .is912])
    ∧ (should_split s = true →
      (build_rows_for_school s).map Row.teachers
        = [get_school_value s .isK8, get_school_value s .is912])
    ∧ (should_split s = false → is_es s = true → is_hs s = false →
      (build_rows_for_school s).map Row.teachers = [get_school_value s .isK8])
    ∧ (should_split s = false → is_hs s = true → is_es s = false →
      (build_rows_for_school s).map Row.teachers = [get_school_value s .is912])
    ∧ (should_split s = false → is_es s = true → is_hs s = true →
      (build_rows_for_school s).map Row.teachers = [get_school_value s .isK8])
    ∧ (should_split s = false → is_es s = false → is_hs s = false →
      (build_rows_for_school s).map Row.teachers = [none]) := by
  refine ⟨?_, ?_, ?_, ?_, ?_, ?_, ?_⟩
  · intro r hr
    unfold build_rows_for_school at hr
    split_ifs at hr
    · simp only [List.mem_cons, List.not_mem_nil, or_false] at hr
      rcases hr with rfl | rfl
      · exact ⟨blank_if_zero_ne_zero _, blank_if_zero_ne_zero _, blank_if_zero_ne_zero _,
          blank_if_zero_ne_zero _, blank_if_zero_ne_zero _, blank_if_zero_ne_zero _⟩
      · exact ⟨blank_if_zero_ne_zero _, blank_if_zero_ne_zero _, blank_if_zero_ne_zero _,
          blank_if_zero_ne_zero _, blank_if_zero_ne_zero _, blank_if_zero_ne_zero _⟩
    · simp only [List.mem_cons, List.not_mem_nil, or_false] at hr
      subst hr
      exact ⟨blank_if_zero_ne_zero _, blank_if_zero_ne_zero _, blank_if_zero_ne_zero _,
        blank_if_zero_ne_zero _, blank_if_zero_ne_zero _, blank_if_zero_ne_zero _⟩
    · simp only [List.mem_cons, List.not_mem_nil, or_false] at hr
      subst hr
      exact ⟨blank_if_zero_ne_zero _, blank_if_zero_ne_zero _, blank_if_zero_ne_zero _,
        blank_if_zero_ne_zero _, blank_if_zero_ne_zero _, blank_if_zero_ne_zero _⟩
    · simp only [List.mem_cons, List.not_mem_nil, or_false] at hr
      subst hr
      exact ⟨blank_if_zero_ne_zero _, blank_if_zero_ne_zero _, blank_if_zero_ne_zero _,
        blank_if_zero_ne_zero _, blank_if_zero_ne_zero _, blank_if_zero_ne_zero _⟩
    · simp only [List.mem_cons, List.not_mem_nil, or_false] at hr
      subst hr
      exact ⟨by simp, blank_if_zero_ne_zero _, by simp, by simp,
        blank_if_zero_ne_zero _, blank_if_zero_ne_zero _⟩
  · intro hb
    have hsp : should_split s = true := by simp [should_split, hb]
    simp [build_rows_for_school, hsp, k8_teachers, hs_teachers]
  · intro hsp
    simp [build_rows_for_school, hsp, k8_teachers, hs_teachers]
  · intro hsp hes hhs
    simp [build_rows_for_school, hsp, hes, hhs, k8_teachers]
  · intro hsp hhs hes
    simp [build_rows_for_school, hsp, hes, hhs, hs_teachers]
  · intro hsp hes hhs
    simp [build_rows_for_school, hsp, hes, hhs, k8_teachers]
  · intro hsp hes hhs
    simp [build_rows_for_school, hsp, hes, hhs]

/-- Witness for the amended C2 at concrete records: a roster split and
a non-roster split whose rows report the raw IS zeros of both bands
verbatim, and a single-ES-row record whose row reports its band's raw
IS 0 verbatim. -/
theorem C2_witness :
    (build_rows_for_school
      ⟨"W".data, true, [(.sub, some 0), (.isK8, some 0), (.is912, some 0), (.swdK8, some 3)]⟩).map
        Row.teachers = [some 0, some 0]
    ∧ (build_rows_for_school
      ⟨"V".data, false, [(.swdK8, some 3), (.isK8, some 0)]⟩).map Row.teachers = [some 0]
    ∧ (build_rows_for_school
      ⟨"U".data, false, [(.swdK8, some 2), (.swd912, some 3), (.isK8, some 0), (.is912, some 0)]⟩).map
        Row.teachers = [some 0, some 0]
    ∧ (⟨"W ES".data, some 3, some 0, none, none, none, none, none⟩ : Row).students ≠ some 0 :=
  ⟨(C2_zero_collapsing
      ⟨"W".data, true, [(.sub, some 0), (.isK8, some 0), (.is912, some 0), (.swdK8, some 3)]⟩).2.1 rfl,
   (C2_zero_collapsing
      ⟨"V".data, false, [(.swdK8, some 3), (.isK8, some 0)]⟩).2.2.2.1
     (by decide) (by decide) (by decide),
   (C2_zero_collapsing
      ⟨"U".data, false, [(.swdK8, some 2), (.swd912, some 3), (.isK8, some 0), (.is912, some 0)]⟩).2.2.1
     (by decide),
   ((C2_zero_collapsing
      ⟨"W".data, true, [(.sub, some 0), (.isK8, some 0), (.is912, some 0), (.swdK8, some 3)]⟩).1
     _ (by decide)).1⟩

/-! ## Claim C4 -/

/-- C4: when both bands are present but no split is warranted
(`isBoth` false and not both student counts positive), RowDeriver
emits exactly one row with the plain school name carrying the K-8
values, discarding the 9-12 values. -/
theorem C4_both_bands_no_split (s : School)
    (hes : is_es s = true) (hhs : is_hs s = true) (hsp : should_split s = false) :
    build_rows_for_school s =
      [⟨s.name, k8_students s, k8_teachers s, sub_v s, k8_oss s, k8_ex s, er_v s, mdm_v s⟩] := by
  simp [build_rows_for_school, hsp, hes, hhs]

/-- Witness for C4 at a concrete record with OSS counts on both bands
but no positive student counts. -/
theorem C4_witness :
    build_rows_for_school ⟨"Y".data, false, [(.ossK8, some 1), (.oss912, some 2)]⟩
      = [⟨"Y".data, none, none, none, some 1, none, none, none⟩] :=
  C4_both_bands_no_split ⟨"Y".data, false, [(.ossK8, some 1), (.oss912, some 2)]⟩
    (by decide) (by decide) (by decide)

/-! ## Claim C5 -/

/-- The fixed offset table as the spec states it, label by label (to
be compared with the source's `index_labels`). -/
def offsetOf : FieldLabel → Nat
  | .sub => 1
  | .is912 => 2
  | .swdK8 => 4
  | .swd912 => 5
  | .ossK8 => 9
  | .oss912 => 10
  | .exK8 => 11
  | .ex912 => 12
  | .er => 13
  | .mdm => 14
  | .isK8 => 15

/-- C5: the fallback extractor binds each label to the value at its
fixed offset in the dropped digit-run sequence, and skips (produces no
entry for) every label whose offset is beyond the end of the sequence
instead of failing. -/
theorem C5_primary_extractor_offsets (t : Str) (l : FieldLabel) :
    (∀ v : ℚ, (l, some v) ∈ primary_extract t ↔
      ∃ n : Nat, (refined_numbers t)[offsetOf l]? = some n ∧ (n : ℚ) = v)
    ∧ ((refined_numbers t).length ≤ offsetOf l → ∀ o, (l, o) ∉ primary_extract t) := by
  constructor
  · intro v
    cases l <;>
      simp [primary_extract, index_labels, List.mem_filterMap, Option.map_eq_some',
        Option.bind_eq_some, Prod.mk.injEq, offsetOf, and_assoc]
  · intro hlen o hmem
    rw [primary_extract, List.mem_filterMap] at hmem
    obtain ⟨b, hb, hfb⟩ := hmem
    rw [Option.map_eq_some'] at hfb
    obtain ⟨n, hn, heq⟩ := hfb
    fin_cases hb
    all_goals
      cases heq
      obtain ⟨hlt, -⟩ := List.getElem?_eq_some_iff.mp hn
      simp only [offsetOf] at hlen
      omega

/-- Witness for C5: a text whose digit-run sequence has 39 runs (so
two survive the drop of 37), hitting the Sub offset, and the empty
text, where every offset is out of range. -/
theorem C5_witness :
    (FieldLabel.sub, some (5 : ℚ)) ∈
      primary_extract "0 0 0 0 0 0 0 0 0 0 0 0 0 0 0 0 0 0 0 0 0 0 0 0 0 0 0 0 0 0 0 0 0 0 0 0 0 0 5".data
    ∧ (FieldLabel.sub, (none : Option ℚ)) ∉ primary_extract [] :=
  ⟨((C5_primary_extractor_offsets _ .sub).1 5).mpr ⟨5, by decide, by norm_num⟩,
   (C5_primary_extractor_offsets [] .sub).2 (by decide) none⟩

/-! ## Claim C3 -/

/-- The labels of the fallback extraction form a subsequence of the
table's labels: each table row contributes its label at most once. -/
theorem primary_extract_labels_sublist (t : Str) :
    ((primary_extract t).map Prod.fst).Sublist (index_labels.map Prod.fst) := by
  unfold primary_extract
  have h : ∀ L : List (FieldLabel × Nat),
      ((L.filterMap (fun li =>
          ((refined_numbers t)[li.2]?).map (fun (v : Nat) => (li.1, some (v : ℚ))))).map
        Prod.fst).Sublist (L.map Prod.fst) := by
    intro L
    induction L with
    | nil => simp
    | cons a L ih =>
      rw [List.filterMap_cons, List.map_cons]
      cases hx : ((refined_numbers t)[a.2]? : Option Nat) with
      | none => exact List.Sublist.cons _ ih
      | some v =>
        rw [Option.map_some', List.map_cons]
        exact List.Sublist.cons₂ _ ih
  exact h index_labels

/-- C3 counterexample: a record built by the fallback strategy from a
text with no digits carries no entry at all for the Sub label (nor any
other), refuting the one-entry-per-label invariant for that strategy. -/
theorem C3_counterexample :
    (school_from_fallback "X".data []).data_list = []
    ∧ ((school_from_fallback "X".data []).data_list.map Prod.fst).count FieldLabel.sub = 0 := by
  decide

/-- C3 amended: a record built by the OCR strategy carries exactly one
entry per label, for every one of the eleven labels; a record built by
the layout-index fallback carries at most one entry per label (one for
each label whose offset is in range, none for the others). -/
theorem C3_one_entry_per_label (name : Str) (ocr : Fields) (t : Str) (l : FieldLabel) :
    ((school_from_ocr name ocr).data_list.map Prod.fst).count l = 1
    ∧ ((school_from_fallback name t).data_list.map Prod.fst).count l ≤ 1 := by
  constructor
  · cases l <;> simp [school_from_ocr, index_labels, List.map_map, List.count_cons]
  · have hnodup : ((primary_extract t).map Prod.fst).Nodup :=
      (primary_extract_labels_sublist t).nodup (by decide)
    exact List.nodup_iff_count_le_one.mp hnodup l

/-! ## Claim C6 -/

/-- C6: the name locator is a total function (it always returns a
string; the source's try/except never escapes), and it returns the
"Unknown School" placeholder whenever the block list has fewer than 19
entries, or block 18 lacks a lines list, or its first line lacks a
spans list. -/
theorem C6_name_locator_placeholder (p : PageD) :
    (∀ bs : List BlockD, p.blocks = some bs → bs.length < 19 →
      locate_school_name (some p) = "Unknown School".data)
    ∧ (∀ bs tb, p.blocks = some bs → bs[18]? = some tb → tb.lines = none →
      locate_school_name (some p) = "Unknown School".data)
    ∧ (∀ bs tb fl rest, p.blocks = some bs → bs[18]? = some tb →
      tb.lines = some (fl :: rest) → fl.spans = none →
      locate_school_name (some p) = "Unknown School".data) := by
  refine ⟨?_, ?_, ?_⟩
  · intro bs hbs hlen
    have h18 : bs[18]? = none := List.getElem?_eq_none (by omega)
    simp [locate_school_name, hbs, h18]
  · intro bs tb hbs h18 hlines
    simp [locate_school_name, hbs, h18, hlines]
  · intro bs tb fl rest hbs h18 hlines hspans
    simp [locate_school_name, hbs, h18, hlines, hspans]

/-- Witness for C6: a short block list, a block without lines, and a
first line without spans. -/
theorem C6_witness :
    locate_school_name (some ⟨some []⟩) = "Unknown School".data
    ∧ locate_school_name (some ⟨some (List.replicate 19 ⟨none⟩)⟩) = "Unknown School".data
    ∧ locate_school_name (some ⟨some (List.replicate 19 ⟨some [⟨none⟩]⟩)⟩)
      = "Unknown School".data :=
  ⟨(C6_name_locator_placeholder ⟨some []⟩).1 [] rfl (by decide),
   (C6_name_locator_placeholder ⟨some (List.replicate 19 ⟨none⟩)⟩).2.1
     (List.replicate 19 ⟨none⟩) ⟨none⟩ rfl (by decide) rfl,
   (C6_name_locator_placeholder ⟨some (List.replicate 19 ⟨some [⟨none⟩]⟩)⟩).2.2
     (List.replicate 19 ⟨some [⟨none⟩]⟩) ⟨some [⟨none⟩]⟩ ⟨none⟩ [] rfl (by decide) rfl rfl⟩

/-! ## Claim C10: heap frame lemmas -/

theorem hGet_append_lt (h : Heap) (fs : List Fields) (i : Nat) (hi : i < h.length) :
    hGet (h ++ fs) i = hGet h i := by
  unfold hGet
  rw [List.getElem?_append_left hi]

theorem dictWrite_length (h : Heap) (r : Nat) (l : FieldLabel) (v : ℚ) :
    (dictWrite h r l v).length = h.length := by
  simp [dictWrite]

theorem hGet_dictWrite_ne (h : Heap) (r i : Nat) (l : FieldLabel) (v : ℚ) (hne : i ≠ r) :
    hGet (dictWrite h r l v) i = hGet h i := by
  unfold dictWrite hGet
  rw [List.getElem?_set_ne (Ne.symm hne)]

theorem doubleDigitStepH_length (t : Str) (c : Nat) (h : Heap) (e : FieldLabel × List Str) :
    (doubleDigitStepH t c h e).length = h.length := by
  unfold doubleDigitStepH
  cases e.2.find? (fun p => hasSubstr t p) <;>
    dsimp only <;> split_ifs <;> simp [dictWrite_length]

theorem doubleDigitStepH_get_ne (t : Str) (c : Nat) (h : Heap) (e : FieldLabel × List Str)
    (i : Nat) (hi : i ≠ c) :
    hGet (doubleDigitStepH t c h e) i = hGet h i := by
  unfold doubleDigitStepH
  cases e.2.find? (fun p => hasSubstr t p) <;>
    dsimp only <;> split_ifs <;> simp [hGet_dictWrite_ne _ _ _ _ _ hi]

theorem ddfoldH_frame (t : Str) (c : Nat) (entries : List (FieldLabel × List Str)) (h : Heap) :
    ((entries.foldl (doubleDigitStepH t c) h).length = h.length)
    ∧ ∀ i, i ≠ c → hGet (entries.foldl (doubleDigitStepH t c) h) i = hGet h i := by
  induction entries generalizing h with
  | nil => exact ⟨rfl, fun i _ => rfl⟩
  | cons e es ih =>
    rw [List.foldl_cons]
    obtain ⟨ihl, ihg⟩ := ih (doubleDigitStepH t c h e)
    refine ⟨ihl.trans (doubleDigitStepH_length t c h e), fun i hi => ?_⟩
    rw [ihg i hi, doubleDigitStepH_get_ne t c h e i hi]

theorem ddH_spec (h : Heap) (r : Nat) (t : Str) :
    (apply_double_digit_correctionsH h r t).2 = h.length
    ∧ h.length < (apply_double_digit_correctionsH h r t).1.length
    ∧ ∀ i, i < h.length → hGet (apply_double_digit_correctionsH h r t).1 i = hGet h i := by
  unfold apply_double_digit_correctionsH dictCopy
  dsimp only
  obtain ⟨hl, hg⟩ := ddfoldH_frame t h.length double_digit_fields (h ++ [hGet h r])
  refine ⟨rfl, ?_, fun i hi => ?_⟩
  · rw [hl]
    simp
  · rw [hg i (by omega), hGet_append_lt _ _ _ hi]

theorem largeH_spec (h : Heap) (r : Nat) (t : Str) :
    (apply_large_number_correctionsH h r t).2 = h.length
    ∧ h.length < (apply_large_number_correctionsH h r t).1.length
    ∧ ∀ i, i < h.length → hGet (apply_large_number_correctionsH h r t).1 i = hGet h i := by
  unfold apply_large_number_correctionsH dictCopy
  dsimp only
  refine ⟨rfl, ?_, fun i hi => ?_⟩
  · split_ifs <;> simp [dictWrite_length]
  · split_ifs <;>
      simp [hGet_dictWrite_ne _ _ _ _ _ (by omega : i ≠ h.length),
        hGet_append_lt _ _ _ hi]

theorem missingH_spec (h : Heap) (r : Nat) (t : Str) :
    (apply_missing_data_correctionsH h r t).2 = h.length
    ∧ h.length < (apply_missing_data_correctionsH h r t).1.length
    ∧ ∀ i, i < h.length → hGet (apply_missing_data_correctionsH h r t).1 i = hGet h i := by
  unfold apply_missing_data_correctionsH dictCopy
  dsimp only
  refine ⟨rfl, ?_, fun i hi => ?_⟩
  · split_ifs <;> simp [dictWrite_length]
  · split_ifs <;>
      simp [hGet_dictWrite_ne _ _ _ _ _ (by omega : i ≠ h.length),
        hGet_append_lt _ _ _ hi]

theorem contextStepH_length (t : Str) (c : Nat) (h : Heap) (l : FieldLabel) :
    (contextStepH t c h l).length = h.length := by
  unfold contextStepH
  dsimp only
  split_ifs <;> simp [dictWrite_length]

theorem contextStepH_get_ne (t : Str) (c : Nat) (h : Heap) (l : FieldLabel)
    (i : Nat) (hi : i ≠ c) :
    hGet (contextStepH t c h l) i = hGet h i := by
  unfold contextStepH
  dsimp only
  split_ifs <;> simp [hGet_dictWrite_ne _ _ _ _ _ hi]

theorem ctxH_spec (h : Heap) (r : Nat) (t : Str) :
    (apply_context_based_correctionsH h r t).2 = h.length
    ∧ h.length < (apply_context_based_correctionsH h r t).1.length
    ∧ ∀ i, i < h.length → hGet (apply_context_based_correctionsH h r t).1 i = hGet h i := by
  unfold apply_context_based_correctionsH dictCopy
  dsimp only
  rw [List.foldl_cons, List.foldl_cons, List.foldl_nil]
  refine ⟨rfl, ?_, fun i hi => ?_⟩
  · rw [contextStepH_length, contextStepH_length]
    simp
  · rw [contextStepH_get_ne _ _ _ _ _ (by omega), contextStepH_get_ne _ _ _ _ _ (by omega),
      hGet_append_lt _ _ _ hi]

theorem copy_spec (h : Heap) (r : Nat) :
    (dictCopy h r).2 = h.length
    ∧ h.length < (dictCopy h r).1.length
    ∧ ∀ i, i < h.length → hGet (dictCopy h r).1 i = hGet h i := by
  unfold dictCopy
  exact ⟨rfl, by simp, fun i hi => hGet_append_lt _ _ _ hi⟩

/-- C10: the correction engine never mutates its input dict: it starts
from a `copy` and all writes land in freshly allocated dicts. In the
heap model: every pre-existing address (in particular the input
reference) holds the same dict after the call, and the returned
reference is a fresh, valid address, distinct from every pre-existing
one. -/
theorem C10_corrections_non_mutating (h : Heap) (r : Nat) (t : Str) :
    (∀ i, i < h.length → hGet (apply_ocr_correctionsH h r t).1 i = hGet h i)
    ∧ h.length ≤ (apply_ocr_correctionsH h r t).2
    ∧ (apply_ocr_correctionsH h r t).2 < (apply_ocr_correctionsH h r t).1.length := by
  unfold apply_ocr_correctionsH
  dsimp only
  set p0 := dictCopy h r with hp0
  set p1 := apply_double_digit_correctionsH p0.1 p0.2 t with hp1
  set p2 := apply_large_number_correctionsH p1.1 p1.2 t with hp2
  set p3 := apply_missing_data_correctionsH p2.1 p2.2 t with hp3
  set p4 := apply_context_based_correctionsH p3.1 p3.2 t with hp4
  have s0 := copy_spec h r
  have s1 := ddH_spec p0.1 p0.2 t
  have s2 := largeH_spec p1.1 p1.2 t
  have s3 := missingH_spec p2.1 p2.2 t
  have s4 := ctxH_spec p3.1 p3.2 t
  rw [← hp0] at s0
  rw [← hp1] at s1
  rw [← hp2] at s2
  rw [← hp3] at s3
  rw [← hp4] at s4
  obtain ⟨e0, l0, g0⟩ := s0
  obtain ⟨e1, l1, g1⟩ := s1
  obtain ⟨e2, l2, g2⟩ := s2
  obtain ⟨e3, l3, g3⟩ := s3
  obtain ⟨e4, l4, g4⟩ := s4
  refine ⟨fun i hi => ?_, by omega, by omega⟩
  rw [g4 i (by omega), g3 i (by omega), g2 i (by omega), g1 i (by omega), g0 i hi]

/-- Witness for C10: a one-dict heap; after the call the original
address still holds the original dict and the result lives at a fresh
address. -/
theorem C10_witness :
    hGet (apply_ocr_correctionsH [{ emptyFields with swdK8 := some 1 }] 0
      "Ohio Virtual Academy".data).1 0 = hGet [{ emptyFields with swdK8 := some 1 }] 0
    ∧ 1 ≤ (apply_ocr_correctionsH [{ emptyFields with swdK8 := some 1 }] 0
      "Ohio Virtual Academy".data).2 :=
  ⟨(C10_corrections_non_mutating [{ emptyFields with swdK8 := some 1 }] 0
      "Ohio Virtual Academy".data).1 0 (by decide),
   (C10_corrections_non_mutating [{ emptyFields with swdK8 := some 1 }] 0
      "Ohio Virtual Academy".data).2.1⟩
